import Mathlib

/-
Verification of the SynthFrame sketch vision pipeline, shallow-embedded
from backend/vision/preprocess.py, backend/vision/detect.py,
backend/vision/image_to_text.py, backend/models/wireframe.py and
backend/config.py.

Modelling conventions:
* Python floats are modelled as exact rationals; a decimal literal such as
  0.95 in the source is the rational 19/20 here.
* Pixel coordinates and image dimensions are integers.
* Python exceptions are modelled with Except PyErr.  Division in the
  source is the partial operation pydiv, which raises ZeroDivisionError
  when the denominator is 0, exactly as the interpreter does; the source
  contains no explicit zero guard around its divisions by the image
  dimensions, and neither does the embedding.
* OpenCV geometric primitives (cv2.contourArea, cv2.arcLength plus
  cv2.approxPolyDP, cv2.boundingRect, cv2.findContours, cv2.imdecode) are
  external-library calls: a Contour record carries the values those
  primitives return for it, and the byte-level decoders are oracle fields
  of a VisionLib record.  The pure raster transforms of preprocess.py
  (grayscale, blur, adaptive threshold, morphology) are dimension
  preserving library work and are absorbed into the findContours oracle.
-/

namespace SynthFrame

/-- Python exception values that the pipeline can surface: ValueError
(raised by decode_base64_image and by the decode wrapper in
analyze_sketch), binascii.Error (a ValueError subclass raised by
base64.b64decode), ZeroDivisionError (raised by the interpreter on
division by zero) and AttributeError (raised when detect.py references
an enumeration member that models/wireframe.py does not define). -/
inductive PyErr where
  | valueError (msg : String)
  | binasciiError (msg : String)
  | zeroDivisionError
  | attributeError (msg : String)
  deriving DecidableEq

/-- Python str(e) for the modelled exceptions. -/
def pyStr : PyErr → String
  | .valueError m => m
  | .binasciiError m => m
  | .zeroDivisionError => "division by zero"
  | .attributeError m => m

/-- Python division on numbers: raises ZeroDivisionError when the
denominator is zero, otherwise returns the exact quotient. -/
def pydiv (a b : ℚ) : Except PyErr ℚ :=
  if b = 0 then .error .zeroDivisionError else .ok (a / b)

/-- The ComponentType enumeration of backend/models/wireframe.py
(lines 10-68), all 42 members, in source order (RADIO is written
radioInput where Lean tooling constrains the spelling).  Note that the
enumeration defines neither a HERO nor a SECTION member, although
backend/vision/detect.py refers to ComponentType.HERO and
ComponentType.SECTION: in Python those attribute references raise
AttributeError when evaluated. -/
inductive ComponentType where
  | container | row | column | grid
  | navbar | sidebar | footer | breadcrumb | tabs
  | heading | paragraph | image | icon | divider | card
  | button | link | input | textarea | select | checkbox
  | radioInput | toggle | slider
  | form | loginForm | signupForm | searchBar
  | table | list | calendar | chart | progressBar | badge | avatar
  | modal | toast | tooltip | alert
  | box | text | unknown
  deriving DecidableEq

/-- Canvas-space position, models Position of models/wireframe.py. -/
structure Position where
  x : ℚ
  y : ℚ
  deriving DecidableEq

/-- Canvas-space size, models Size of models/wireframe.py. -/
structure Size where
  width : ℚ
  height : ℚ
  deriving DecidableEq

/-- A default-props value: the dict payloads of _get_default_props hold
strings, lists of strings and integers. -/
inductive PropVal where
  | s (v : String)
  | l (v : List String)
  | n (v : ℤ)
  deriving DecidableEq

/-- The component value as constructed by shapes_to_components in
backend/vision/detect.py: type, position, size, confidence and props are
passed at the construction site; no id is passed there, so the id field
always holds the model default "" (models/wireframe.py line 231). -/
structure Component where
  id : String
  type : ComponentType
  position : Position
  size : Size
  confidence : ℚ
  props : List (String × PropVal)
  deriving DecidableEq

/-- A contour as the detection stage observes it.  cv2 is an external
library, so the geometric primitives applied to a contour are recorded as
oracle fields rather than recomputed: area is cv2.contourArea,
approxCorners is the vertex count of cv2.approxPolyDP at epsilon = 2% of
arc length, and rx, ry, rw, rh are the cv2.boundingRect results. -/
structure Contour where
  area : ℚ
  approxCorners : ℕ
  rx : ℤ
  ry : ℤ
  rw : ℤ
  rh : ℤ
  deriving DecidableEq

/-- DetectedShape of backend/vision/detect.py (lines 45-67). -/
structure DetectedShape where
  x : ℤ
  y : ℤ
  width : ℤ
  height : ℤ
  contour : Contour
  area : ℚ
  deriving DecidableEq

/-- The aspect_ratio property of DetectedShape: width / height, defined
as 0 when height is 0 (the one explicitly guarded division). -/
def DetectedShape.aspect (s : DetectedShape) : ℚ :=
  if s.height = 0 then 0 else (s.width : ℚ) / (s.height : ℚ)

/-- settings.min_contour_area from backend/config.py line 52. -/
def minContourArea : ℤ := 500

/-- settings.default_canvas_width from backend/config.py line 63. -/
def defaultCanvasWidth : ℤ := 1440

/-- settings.default_canvas_height from backend/config.py line 64. -/
def defaultCanvasHeight : ℤ := 900

/-- filter_contours of backend/vision/detect.py (lines 95-140): keep a
contour iff its area is not below min_area, not above 95% of the image
area, and its simplified polygon has between 3 and 8 vertices. -/
def filterContours (contours : List Contour) (imageArea : ℤ) (minArea : ℤ) :
    List Contour :=
  contours.filter fun c =>
    decide (¬ c.area < (minArea : ℚ) ∧
            ¬ c.area > (imageArea : ℚ) * (19/20) ∧
            3 ≤ c.approxCorners ∧ c.approxCorners ≤ 8)

/-- The sort key order of contours_to_shapes: Python sorts the shape list
by the tuple (y, x) ascending. -/
def lexYX (a b : DetectedShape) : Prop :=
  a.y < b.y ∨ (a.y = b.y ∧ a.x ≤ b.x)

instance : DecidableRel lexYX := fun a b =>
  inferInstanceAs (Decidable (a.y < b.y ∨ (a.y = b.y ∧ a.x ≤ b.x)))

instance : IsTrans DetectedShape lexYX where
  trans a b c hab hbc := by
    rcases hab with h1 | ⟨h1, h2⟩ <;> rcases hbc with h3 | ⟨h3, h4⟩
    · exact Or.inl (lt_trans h1 h3)
    · exact Or.inl (h3 ▸ h1)
    · exact Or.inl (h1 ▸ h3)
    · exact Or.inr ⟨h1.trans h3, le_trans h2 h4⟩

instance : IsTotal DetectedShape lexYX where
  total a b := by
    rcases lt_trichotomy a.y b.y with h | h | h
    · exact Or.inl (Or.inl h)
    · rcases le_total a.x b.x with hx | hx
      · exact Or.inl (Or.inr ⟨h, hx⟩)
      · exact Or.inr (Or.inr ⟨h.symm, hx⟩)
    · exact Or.inr (Or.inl h)

/-- contours_to_shapes of backend/vision/detect.py (lines 143-173): take
each contour's bounding rectangle and raw area, then sort the shape list
by (y, x).  Python's list.sort is a stable sort on that key; a stable
sort with respect to a total preorder is unique, so insertion sort with
lexYX produces the same list. -/
def contoursToShapes (contours : List Contour) : List DetectedShape :=
  List.insertionSort lexYX (contours.map fun c =>
    { x := c.rx, y := c.ry, width := c.rw, height := c.rh,
      contour := c, area := c.area })

/-- map_shape_to_component_type of backend/vision/detect.py
(lines 176-244): compute the five ratios (each a Python division that
raises ZeroDivisionError on a zero denominator), then run the first-match
cascade NAVBAR, FOOTER, SIDEBAR, HERO, BUTTON, CARD, default SECTION.
The HERO arm executes `return ComponentType.HERO, 0.8` and the default
arm `return ComponentType.SECTION, 0.5`; since the enumeration defines
neither member, reaching either arm raises AttributeError. -/
def mapShapeToComponentType (shape : DetectedShape)
    (imageWidth imageHeight : ℤ) : Except PyErr (ComponentType × ℚ) :=
  (pydiv shape.x imageWidth).bind fun xr =>
  (pydiv shape.y imageHeight).bind fun yr =>
  (pydiv shape.width imageWidth).bind fun wr =>
  (pydiv shape.height imageHeight).bind fun hr2 =>
  (pydiv shape.area ((imageWidth : ℚ) * (imageHeight : ℚ))).bind fun ar =>
  if yr < 12/100 ∧ wr > 7/10 ∧ hr2 < 15/100 then
    .ok (ComponentType.navbar, 9/10)
  else if yr + hr2 > 85/100 ∧ wr > 7/10 then
    .ok (ComponentType.footer, 85/100)
  else if xr < 3/10 ∧ hr2 > 1/2 ∧ wr < 35/100 then
    .ok (ComponentType.sidebar, 85/100)
  else if yr < 35/100 ∧ ar > 15/100 then
    .error (.attributeError "HERO")
  else if ar < 3/100 ∧ 3/2 < shape.aspect ∧ shape.aspect < 6 then
    .ok (ComponentType.button, 7/10)
  else if ar < 15/100 ∧ 1/2 < shape.aspect ∧ shape.aspect < 2 then
    .ok (ComponentType.card, 7/10)
  else
    .error (.attributeError "SECTION")

/-- The function _get_default_props of backend/vision/detect.py
(lines 307-357).  Its dict literal is rebuilt on every call, and Python
evaluates the key expressions of a dict display in order; the second key
is ComponentType.HERO, which the ComponentType enumeration does not
define, so every call raises AttributeError before the table exists.
The entries after that key are unreachable and therefore unobservable. -/
def getDefaultProps (_ty : ComponentType) :
    Except PyErr (List (String × PropVal)) :=
  .error (.attributeError "HERO")

/-- The loop body of shapes_to_components (backend/vision/detect.py
lines 281-302): classify the shape, scale its position and size by the
precomputed factors, and build the Component.  The Component constructor
call passes type, position, size, confidence and props (evaluated in that
order, so the _get_default_props call runs after classification); it
passes no id, so the id field keeps the model default "" from
models/wireframe.py line 231. -/
def shapesToComponentsLoop (imageWidth imageHeight : ℤ) (sx sy : ℚ) :
    List DetectedShape → Except PyErr (List Component)
  | [] => .ok []
  | shape :: rest =>
    (mapShapeToComponentType shape imageWidth imageHeight).bind fun tc =>
    (getDefaultProps tc.1).bind fun props =>
    (shapesToComponentsLoop imageWidth imageHeight sx sy rest).bind fun comps =>
    .ok ({ id := "", type := tc.1,
           position := { x := (shape.x : ℚ) * sx, y := (shape.y : ℚ) * sy },
           size := { width := (shape.width : ℚ) * sx,
                     height := (shape.height : ℚ) * sy },
           confidence := tc.2, props := props } :: comps)

/-- shapes_to_components of backend/vision/detect.py (lines 247-304):
compute scale_x = canvas_width / image_width and
scale_y = canvas_height / image_height (Python divisions, unguarded),
then run the emission loop. -/
def shapesToComponents (shapes : List DetectedShape)
    (imageWidth imageHeight canvasWidth canvasHeight : ℤ) :
    Except PyErr (List Component) :=
  (pydiv canvasWidth imageWidth).bind fun sx =>
  (pydiv canvasHeight imageHeight).bind fun sy =>
  shapesToComponentsLoop imageWidth imageHeight sx sy shapes

/-- detect_components of backend/vision/detect.py (lines 360-418), for a
binary raster of the given dimensions whose traced outer contours are
`contours` (cv2.findContours is the oracle that produced them): filter
the contours, convert them to sorted shapes, then assemble components at
the default canvas size.  The debug visualization drawn afterwards is
diagnostic only and is not modelled. -/
def detectComponents (contours : List Contour)
    (imageWidth imageHeight : ℤ) : Except PyErr (List Component) :=
  shapesToComponents
    (contoursToShapes
      (filterContours contours (imageWidth * imageHeight) minContourArea))
    imageWidth imageHeight defaultCanvasWidth defaultCanvasHeight

/-- A raster as the dimension-level embedding sees it: pixel contents are
owned by the external image library, so only the width and height are
carried. -/
structure Image where
  width : ℤ
  height : ℤ
  deriving DecidableEq

/-- Python int(): truncation toward zero. -/
def pyInt (q : ℚ) : ℤ := if 0 ≤ q then ⌊q⌋ else -⌊-q⌋

/-- resize_for_processing of backend/vision/preprocess.py
(lines 258-292): if max(height, width) is within the ceiling, return the
raster unchanged with scale factor 1.0; otherwise scale both dimensions
by ceiling / longest-side (dimensions pass through Python int(), and the
cv2.resize interpolation acts on pixel contents only). -/
def resizeForProcessing (image : Image) (maxDimension : ℤ) : Image × ℚ :=
  if max image.height image.width ≤ maxDimension then (image, 1)
  else
    let scale : ℚ :=
      if image.width > image.height then (maxDimension : ℚ) / image.width
      else (maxDimension : ℚ) / image.height
    ({ width := pyInt ((image.width : ℚ) * scale),
       height := pyInt ((image.height : ℚ) * scale) }, scale)

/-- The external image-library surface used by the pipeline.  imdecode
models cv2.imdecode applied to the decoded base64 payload (None for
unrecognized bytes, so the Option); findContours models the composite of
the dimension-preserving preprocessing of preprocess.py (grayscale, blur,
adaptive threshold, morphology) followed by cv2.findContours on the
resulting binary raster of the same dimensions. -/
structure VisionLib where
  imdecode : List Char → Option Image
  findContours : Image → List Contour

/-- Characters of the base64 alphabet together with the padding sign. -/
def b64Alphabet (c : Char) : Bool :=
  c.isAlpha || c.isDigit || c == '+' || c == '/' || c == '='

/-- The character-list suffix after the first comma, when one exists. -/
def dropThroughComma : List Char → Option (List Char)
  | [] => none
  | c :: rest => if c = ',' then some rest else dropThroughComma rest

/-- The character-list segment before the first comma. -/
def takeUntilComma : List Char → List Char
  | [] => []
  | c :: rest => if c = ',' then [] else c :: takeUntilComma rest

/-- The payload selected by decode_base64_image from the input string:
Python's `base64_string.split(",")[1]` when a comma is present — the
segment between the first comma and the following comma or end — and the
whole string otherwise. -/
def b64Payload (cs : List Char) : List Char :=
  match dropThroughComma cs with
  | none => cs
  | some rest => takeUntilComma rest

/-- Model of Python base64.b64decode with validate=False, as called by
decode_base64_image: characters outside the base64 alphabet are
discarded, and decoding raises binascii.Error when the count of retained
data characters is not a multiple of four.  The decoded byte payload is
abstracted as the retained characters, since the only consumer is the
imdecode oracle. -/
def pyB64Decode (payload : List Char) : Except PyErr (List Char) :=
  let ds := payload.filter b64Alphabet
  if ds.length % 4 = 0 then .ok ds
  else .error (.binasciiError "Invalid base64-encoded string")

/-- decode_base64_image of backend/vision/preprocess.py (lines 40-74):
take the payload after the first comma when a data-URI prefix is present,
base64-decode it, hand the bytes to cv2.imdecode (the numpy frombuffer
step is a representation change absorbed into the oracle), and raise
ValueError when the bytes are not a recognized image. -/
def decodeBase64Image (lib : VisionLib) (s : String) : Except PyErr Image :=
  match pyB64Decode (b64Payload s.toList) with
  | .error e => .error e
  | .ok bytes =>
    match lib.imdecode bytes with
    | none => .error (.valueError "Could not decode image from base64 string")
    | some image => .ok image

/-- Modelled from the spec: backend/vision/image_to_text.py imports a
`Wireframe` class from models.wireframe, but no such class exists in the
source tree.  Spec section 3 describes the Layout/Wireframe entity as a
named, ordered aggregation of the emitted components, which is what the
call site Wireframe(name=..., components=...) constructs. -/
structure Wireframe where
  name : String
  components : List Component
  deriving DecidableEq

/-- SketchAnalysisResult of backend/vision/image_to_text.py
(lines 30-59); the debug image and the processing-notes strings are
diagnostic only and are not modelled. -/
structure SketchAnalysisResult where
  wireframe : Wireframe
  components : List Component
  originalSize : ℤ × ℤ
  deriving DecidableEq

/-- analyze_sketch of backend/vision/image_to_text.py (lines 62-138):
decode (any failure there is caught and re-raised as
ValueError("Could not decode image: " + str(e))), resize with the 1200
ceiling, preprocess and detect (errors past decoding propagate
unchanged), and package the wireframe. -/
def analyzeSketch (lib : VisionLib) (imageBase64 : String)
    (wireframeName : String) : Except PyErr SketchAnalysisResult :=
  match decodeBase64Image lib imageBase64 with
  | .error e => .error (.valueError ("Could not decode image: " ++ pyStr e))
  | .ok originalImage =>
    let resized := (resizeForProcessing originalImage 1200).1
    let contours := lib.findContours resized
    match detectComponents contours resized.width resized.height with
    | .error e => .error e
    | .ok comps =>
      .ok { wireframe := { name := wireframeName, components := comps },
            components := comps,
            originalSize := (originalImage.width, originalImage.height) }

/-- A concrete contour: a 100 by 50 rectangle at the origin. -/
def demoContourA : Contour :=
  { area := 5000, approxCorners := 4, rx := 0, ry := 0, rw := 100, rh := 50 }

/-- A concrete contour: a 100 by 50 rectangle at (10, 60). -/
def demoContourB : Contour :=
  { area := 5000, approxCorners := 4, rx := 10, ry := 60, rw := 100, rh := 50 }

/-- The shape extracted from demoContourA. -/
def demoShapeA : DetectedShape :=
  { x := 0, y := 0, width := 100, height := 50,
    contour := demoContourA, area := 5000 }

/-- The shape extracted from demoContourB. -/
def demoShapeB : DetectedShape :=
  { x := 10, y := 60, width := 100, height := 50,
    contour := demoContourB, area := 5000 }

/-- A contour whose area is exactly 95% of a 1000-pixel image area. -/
def c95 : Contour :=
  { area := 950, approxCorners := 4, rx := 0, ry := 0, rw := 38, rh := 25 }

/-- A shape matching the HERO rule and no earlier rule in a 1000 by 1000
image: y_ratio 0.2, width_ratio 0.8, height_ratio 0.2, area_ratio 0.2. -/
def heroShape : DetectedShape :=
  { x := 100, y := 200, width := 800, height := 200,
    contour := { area := 200000, approxCorners := 4,
                 rx := 100, ry := 200, rw := 800, rh := 200 },
    area := 200000 }

/-- A shape matching no cascade rule in a 1000 by 1000 image, so that the
default SECTION arm is reached: ratios 0.5, 0.5, 0.01, 0.2, area ratio
0.002, aspect ratio 0.05. -/
def sectionShape : DetectedShape :=
  { x := 500, y := 500, width := 10, height := 200,
    contour := { area := 2000, approxCorners := 4,
                 rx := 500, ry := 500, rw := 10, rh := 200 },
    area := 2000 }

/-- A shape matching both the NAVBAR rule and the HERO rule in a 1000 by
1000 image: full width at the very top and also large in area. -/
def navHeroShape : DetectedShape :=
  { x := 0, y := 0, width := 1000, height := 140,
    contour := { area := 200000, approxCorners := 4,
                 rx := 0, ry := 0, rw := 1000, rh := 140 },
    area := 200000 }

/-- A shape with zero height, exercising the aspect_ratio guard. -/
def zeroHeightShape : DetectedShape :=
  { x := 3, y := 4, width := 25, height := 0,
    contour := { area := 0, approxCorners := 4,
                 rx := 3, ry := 4, rw := 25, rh := 0 },
    area := 10 }

/-- Fallback shape for positional list access in statements. -/
def dummyShape : DetectedShape :=
  { x := 0, y := 0, width := 0, height := 0,
    contour := { area := 0, approxCorners := 0,
                 rx := 0, ry := 0, rw := 0, rh := 0 },
    area := 0 }

/-- An image-library oracle that recognizes no byte stream. -/
def noneLib : VisionLib :=
  { imdecode := fun _ => none, findContours := fun _ => [] }

/-- An image-library oracle that decodes every byte stream to a 100 by 80
raster on which no contours are found. -/
def emptyLib : VisionLib :=
  { imdecode := fun _ => some { width := 100, height := 80 },
    findContours := fun _ => [] }

theorem pydiv_ok (a b : ℚ) (h : b ≠ 0) : pydiv a b = .ok (a / b) := by
  simp [pydiv, h]

theorem pydiv_zero (a : ℚ) : pydiv a 0 = .error .zeroDivisionError := by
  simp [pydiv]

/-- Claim C1: the classifier checks the NAVBAR rule before the HERO rule,
so a shape satisfying both rules classifies as NAVBAR at confidence 0.9
(first conjunct, the priority-determinism half of the claim).  The claim's
description of the whole cascade fails on the code, however: the HERO arm
evaluates ComponentType.HERO, which the enumeration does not define, so a
shape that matches the HERO rule and no earlier rule raises
AttributeError instead of returning (HERO, 0.8) (second conjunct). -/
theorem C1_navbar_before_hero :
    (∀ (s : DetectedShape) (w h : ℤ), 0 < w → 0 < h →
       (s.y : ℚ) / h < 12/100 → (s.width : ℚ) / w > 7/10 →
       (s.height : ℚ) / h < 15/100 →
       (s.y : ℚ) / h < 35/100 → s.area / ((w : ℚ) * h) > 15/100 →
       mapShapeToComponentType s w h = .ok (ComponentType.navbar, 9/10)) ∧
    mapShapeToComponentType heroShape 1000 1000 =
      .error (.attributeError "HERO") := by
  constructor
  · intro s w h hw hh h1 h2 h3 _ _
    have hwq : (w : ℚ) ≠ 0 := Int.cast_ne_zero.mpr hw.ne'
    have hhq : (h : ℚ) ≠ 0 := Int.cast_ne_zero.mpr hh.ne'
    have hwh : (w : ℚ) * (h : ℚ) ≠ 0 := mul_ne_zero hwq hhq
    simp only [mapShapeToComponentType, pydiv_ok _ _ hwq, pydiv_ok _ _ hhq,
      pydiv_ok _ _ hwh, Except.bind]
    rw [if_pos ⟨h1, h2, h3⟩]
  · norm_num [mapShapeToComponentType, pydiv, Except.bind, heroShape,
      DetectedShape.aspect]

/-- Witness for C1_navbar_before_hero: a concrete shape satisfying both
the NAVBAR and the HERO rule classifies as NAVBAR with confidence 0.9. -/
theorem C1_navbar_before_hero_witness :
    mapShapeToComponentType navHeroShape 1000 1000 =
      .ok (ComponentType.navbar, 9/10) :=
  C1_navbar_before_hero.1 navHeroShape 1000 1000 (by norm_num)
    (by norm_num) (by norm_num [navHeroShape]) (by norm_num [navHeroShape])
    (by norm_num [navHeroShape]) (by norm_num [navHeroShape])
    (by norm_num [navHeroShape])

/-- Claim C2: the Layout Assembler never emits a component at all — for
any detected shape, the Component construction evaluates
_get_default_props, whose dict literal references the nonexistent
ComponentType.HERO member, so the call raises AttributeError before a
component with the scaled geometry exists.  Evaluated here at one
concrete shape in a 1000 by 1000 image with a 1440 by 900 canvas. -/
theorem C2_assembler_emits_nothing :
    shapesToComponents [demoShapeA] 1000 1000 1440 900 =
      .error (.attributeError "HERO") := by
  norm_num [shapesToComponents, shapesToComponentsLoop,
    mapShapeToComponentType, getDefaultProps, pydiv, Except.bind,
    demoShapeA, DetectedShape.aspect]

/-- Claim C4: the Layout Assembler neither emits components nor assigns
ids — the emission loop raises AttributeError building the default-props
table for the first component, and the construction site passes no id
anyway, leaving the constant model default "".  Evaluated at a two-shape
input on which the claim promises two distinct sequential ids. -/
theorem C4_no_id_assignment :
    shapesToComponents [demoShapeA, demoShapeB] 1000 1000 1440 900 =
      .error (.attributeError "HERO") := by
  norm_num [shapesToComponents, shapesToComponentsLoop,
    mapShapeToComponentType, getDefaultProps, pydiv, Except.bind,
    demoShapeA, demoShapeB, DetectedShape.aspect]

/-- Claim C3 (amended): membership in the contour filter's output is
exactly area not below the configured minimum (inclusive lower bound),
area not above 95% of image area (so a contour at exactly 95% is
retained, the exclusion strict), and a simplified polygon with 3 to 8
vertices. -/
theorem C3_filter_membership (contours : List Contour)
    (imageArea minArea : ℤ) (c : Contour) :
    c ∈ filterContours contours imageArea minArea ↔
      c ∈ contours ∧ ¬ c.area < (minArea : ℚ) ∧
        ¬ c.area > (imageArea : ℚ) * (19/20) ∧
        3 ≤ c.approxCorners ∧ c.approxCorners ≤ 8 := by
  simp [filterContours, List.mem_filter, and_assoc]

/-- Counterexample for claim C3 as stated: a contour whose area is
exactly 95% of a 1000-pixel image area, and at least the configured
minimum of 500, is retained by the filter, not discarded. -/
theorem C3_counterexample :
    filterContours [c95] 1000 500 = [c95] ∧
    c95.area = (1000 : ℚ) * (19/20) ∧ (500 : ℚ) ≤ c95.area := by
  refine ⟨?_, by norm_num [c95], by norm_num [c95]⟩
  norm_num [filterContours, c95, List.filter_cons, decide_eq_true_eq]

/-- Claim C5: the Shape Extractor's output is sorted by (y, x) ascending:
for any contour list and any two positions i < j in the output, the
shape at i precedes the shape at j in the lexicographic (y, x) order. -/
theorem C5_sorted_by_y_then_x (contours : List Contour) (i j : ℕ)
    (hij : i < j) (hj : j < (contoursToShapes contours).length) :
    lexYX ((contoursToShapes contours).getD i dummyShape)
          ((contoursToShapes contours).getD j dummyShape) := by
  have hi : i < (contoursToShapes contours).length := Nat.lt_trans hij hj
  have hs : List.Sorted lexYX (contoursToShapes contours) := by
    unfold contoursToShapes
    exact List.sorted_insertionSort lexYX _
  have h2 := @List.Sorted.rel_get_of_lt _ _ _ hs ⟨i, hi⟩ ⟨j, hj⟩ hij
  simpa [List.getD_eq_getElem?_getD, List.getElem?_eq_getElem, hi, hj,
    List.get_eq_getElem] using h2

/-- Witness for C5_sorted_by_y_then_x: with two contours given in reverse
y order, the first two output shapes are in (y, x) order. -/
theorem C5_sorted_witness :
    lexYX ((contoursToShapes [demoContourB, demoContourA]).getD 0 dummyShape)
          ((contoursToShapes [demoContourB, demoContourA]).getD 1 dummyShape) :=
  C5_sorted_by_y_then_x [demoContourB, demoContourA] 0 1 (by decide) (by decide)

/-- Claim C6: every decode failure surfaces from the pipeline entry point
as the single ValueError kind ("Could not decode image: ..."), whatever
lower-level error the decoder raised (first conjunct); in particular the
literal input "not-base64!!" does so for every image-library oracle,
failing inside base64 decoding with nine non-discarded data characters
(second conjunct). -/
theorem C6_decode_errors_are_valueError :
    (∀ (lib : VisionLib) (s nm : String) (e : PyErr),
       decodeBase64Image lib s = .error e →
       analyzeSketch lib s nm =
         .error (.valueError ("Could not decode image: " ++ pyStr e))) ∧
    (∀ (lib : VisionLib) (nm : String),
       analyzeSketch lib "not-base64!!" nm =
         .error (.valueError ("Could not decode image: " ++
           pyStr (.binasciiError "Invalid base64-encoded string")))) := by
  constructor
  · intro lib s nm e h
    simp only [analyzeSketch, h]
  · intro lib nm
    have hd : decodeBase64Image lib "not-base64!!" =
        .error (.binasciiError "Invalid base64-encoded string") := rfl
    simp only [analyzeSketch, hd]

/-- Witness for C6_decode_errors_are_valueError: the concrete oracle that
recognizes no bytes, applied to "not-base64!!", yields exactly the
wrapped ValueError. -/
theorem C6_decode_witness :
    analyzeSketch noneLib "not-base64!!" "Sketch Wireframe" =
      .error (.valueError
        "Could not decode image: Invalid base64-encoded string") :=
  C6_decode_errors_are_valueError.1 noneLib "not-base64!!" "Sketch Wireframe"
    (.binasciiError "Invalid base64-encoded string") rfl

/-- Counterexample for claim C7 as stated: division by a zero image
dimension is not guarded in the code — at a concrete shape, the
classifier with zero image width, and the assembler with zero image
width, evaluate to the interpreter's bare ZeroDivisionError rather than
any guarded, descriptive error. -/
theorem C7_counterexample :
    mapShapeToComponentType demoShapeA 0 600 = .error .zeroDivisionError ∧
    shapesToComponents [demoShapeA] 0 600 1440 900 =
      .error .zeroDivisionError := ⟨rfl, rfl⟩

/-- Claim C7 (amended): only the shape-level division is guarded —
aspect_ratio is 0 when the shape height is 0 (third conjunct) — while
division by a zero image dimension in the Classifier and the Layout
Assembler is unguarded and raises ZeroDivisionError (first and second
conjuncts). -/
theorem C7_zero_dimension_unguarded :
    (∀ (s : DetectedShape) (w h : ℤ), w = 0 ∨ h = 0 →
       mapShapeToComponentType s w h = .error .zeroDivisionError) ∧
    (∀ (shapes : List DetectedShape) (wi hi wc hc : ℤ), wi = 0 ∨ hi = 0 →
       shapesToComponents shapes wi hi wc hc = .error .zeroDivisionError) ∧
    (∀ s : DetectedShape, s.height = 0 → s.aspect = 0) := by
  refine ⟨?_, ?_, ?_⟩
  · intro s w h hwh
    rcases hwh with rfl | rfl
    · simp [mapShapeToComponentType, pydiv, Except.bind]
    · by_cases hw : (w : ℚ) = 0 <;>
        simp [mapShapeToComponentType, pydiv, hw, Except.bind]
  · intro shapes wi hi wc hc hwh
    rcases hwh with rfl | rfl
    · simp [shapesToComponents, pydiv, Except.bind]
    · by_cases hw : (wi : ℚ) = 0 <;>
        simp [shapesToComponents, pydiv, hw, Except.bind]
  · intro s h
    simp [DetectedShape.aspect, h]

/-- Witness for C7_zero_dimension_unguarded at concrete inputs: zero
image width in the classifier, zero image height in the assembler, and
the zero-height shape in the aspect-ratio guard. -/
theorem C7_zero_dimension_witness :
    mapShapeToComponentType demoShapeB 0 5 = .error .zeroDivisionError ∧
    shapesToComponents [] 7 0 1440 900 = .error .zeroDivisionError ∧
    DetectedShape.aspect zeroHeightShape = 0 :=
  ⟨C7_zero_dimension_unguarded.1 demoShapeB 0 5 (Or.inl rfl),
   C7_zero_dimension_unguarded.2.1 [] 7 0 1440 900 (Or.inr rfl),
   C7_zero_dimension_unguarded.2.2 zeroHeightShape rfl⟩

/-- Helper: with no surviving contours and nonzero dimensions, detection
returns the empty component list. -/
theorem detectComponents_of_no_contours (contours : List Contour)
    (w h : ℤ) (hw : w ≠ 0) (hh : h ≠ 0)
    (hfil : filterContours contours (w * h) minContourArea = []) :
    detectComponents contours w h = .ok [] := by
  have hwq : (w : ℚ) ≠ 0 := Int.cast_ne_zero.mpr hw
  have hhq : (h : ℚ) ≠ 0 := Int.cast_ne_zero.mpr hh
  unfold detectComponents
  rw [hfil]
  show shapesToComponents [] w h _ _ = .ok []
  simp [shapesToComponents, pydiv_ok _ _ hwq, pydiv_ok _ _ hhq, Except.bind,
    shapesToComponentsLoop]

/-- Claim C8: zero surviving contours is not an error — the detection
stage returns an empty component list (first conjunct), and the whole
pipeline completes, returning a wireframe with zero components (second
conjunct), for every raster with positive dimensions. -/
theorem C8_empty_detection_is_ok :
    (∀ (contours : List Contour) (w h : ℤ), 0 < w → 0 < h →
       filterContours contours (w * h) minContourArea = [] →
       detectComponents contours w h = .ok []) ∧
    (∀ (lib : VisionLib) (s nm : String) (image : Image),
       decodeBase64Image lib s = .ok image →
       0 < (resizeForProcessing image 1200).1.width →
       0 < (resizeForProcessing image 1200).1.height →
       filterContours
         (lib.findContours (resizeForProcessing image 1200).1)
         ((resizeForProcessing image 1200).1.width *
          (resizeForProcessing image 1200).1.height)
         minContourArea = [] →
       analyzeSketch lib s nm =
         .ok { wireframe := { name := nm, components := [] },
               components := [],
               originalSize := (image.width, image.height) }) := by
  constructor
  · intro contours w h hw hh hfil
    exact detectComponents_of_no_contours contours w h hw.ne' hh.ne' hfil
  · intro lib s nm image hdec hw hh hfil
    simp only [analyzeSketch, hdec]
    rw [detectComponents_of_no_contours _ _ _ hw.ne' hh.ne' hfil]

/-- Witness for C8_empty_detection_is_ok: a concrete oracle decoding
every byte stream to a 100 by 80 raster with no contours, applied to the
empty input string, completes with a zero-component wireframe. -/
theorem C8_empty_detection_witness :
    analyzeSketch emptyLib "" "Sketch Wireframe" =
      .ok { wireframe := { name := "Sketch Wireframe", components := [] },
            components := [],
            originalSize := (100, 80) } :=
  C8_empty_detection_is_ok.2 emptyLib "" "Sketch Wireframe"
    { width := 100, height := 80 } rfl (by decide) (by decide) rfl

/-- Claim C9: the Scaler returns the raster unchanged with scale factor
exactly 1.0 when the longest side is within the 1200 ceiling (first
conjunct); otherwise it returns scale = 1200 / max(width, height) and a
raster whose dimensions are both multiplied by that scale (truncated to
integer pixels by Python int(), second conjunct). -/
theorem C9_resize_contract :
    (∀ image : Image, max image.height image.width ≤ 1200 →
       resizeForProcessing image 1200 = (image, 1)) ∧
    (∀ image : Image, 1200 < max image.height image.width →
       resizeForProcessing image 1200 =
         ({ width := pyInt ((image.width : ℚ) *
              ((1200 : ℚ) / ((max image.height image.width : ℤ) : ℚ))),
            height := pyInt ((image.height : ℚ) *
              ((1200 : ℚ) / ((max image.height image.width : ℤ) : ℚ))) },
          (1200 : ℚ) / ((max image.height image.width : ℤ) : ℚ))) := by
  constructor
  · intro image h
    simp [resizeForProcessing, h]
  · intro image h
    rw [resizeForProcessing, if_neg (not_le.mpr h)]
    by_cases hwh : image.height < image.width
    · rw [max_eq_right (le_of_lt hwh)]
      simp [hwh]
    · rw [max_eq_left (not_lt.mp hwh)]
      simp [hwh]

/-- Witness for C9_resize_contract: an 800 by 600 raster passes through
unchanged with factor 1.0; a 2400 by 1200 raster is scaled by 1/2 to
1200 by 600. -/
theorem C9_resize_witness :
    resizeForProcessing { width := 800, height := 600 } 1200 =
      ({ width := 800, height := 600 }, 1) ∧
    resizeForProcessing { width := 2400, height := 1200 } 1200 =
      ({ width := 1200, height := 600 }, 1/2) := by
  constructor
  · exact C9_resize_contract.1 { width := 800, height := 600 } (by decide)
  · rw [C9_resize_contract.2 { width := 2400, height := 1200 } (by decide)]
    norm_num [pyInt]

/-- Claim C10: whenever the classifier does return a value it is one of
NAVBAR, FOOTER, SIDEBAR, BUTTON, CARD with confidence in
(0.9 | 0.85 | 0.7), inside [0, 1] (first conjunct) — but the cascade is
not total on the seven-type set the claim names: the default SECTION arm
raises AttributeError("SECTION") and the HERO arm
AttributeError("HERO"), shown at concrete shapes (second and third
conjuncts). -/
theorem C10_cascade_not_total :
    (∀ (s : DetectedShape) (w h : ℤ) (t : ComponentType) (c : ℚ),
       0 < w → 0 < h → mapShapeToComponentType s w h = .ok (t, c) →
       t ∈ [ComponentType.navbar, ComponentType.footer,
            ComponentType.sidebar, ComponentType.button,
            ComponentType.card] ∧
       c ∈ [(9 : ℚ)/10, 85/100, 7/10] ∧ 0 ≤ c ∧ c ≤ 1) ∧
    mapShapeToComponentType sectionShape 1000 1000 =
      .error (.attributeError "SECTION") ∧
    mapShapeToComponentType heroShape 1000 1000 =
      .error (.attributeError "HERO") := by
  refine ⟨?_,
    by norm_num [mapShapeToComponentType, pydiv, Except.bind, sectionShape,
      DetectedShape.aspect],
    by norm_num [mapShapeToComponentType, pydiv, Except.bind, heroShape,
      DetectedShape.aspect]⟩
  intro s w h t c hw hh hok
  have hwq : (w : ℚ) ≠ 0 := Int.cast_ne_zero.mpr hw.ne'
  have hhq : (h : ℚ) ≠ 0 := Int.cast_ne_zero.mpr hh.ne'
  have hwh : (w : ℚ) * (h : ℚ) ≠ 0 := mul_ne_zero hwq hhq
  simp only [mapShapeToComponentType, pydiv_ok _ _ hwq, pydiv_ok _ _ hhq,
    pydiv_ok _ _ hwh, Except.bind] at hok
  split_ifs at hok <;>
    (injection hok with hpair
     injection hpair with h1 h2
     subst h1
     subst h2
     refine ⟨by simp, by simp, by norm_num, by norm_num⟩)

/-- Witness for C10_cascade_not_total: instantiating the first conjunct
at the concrete navbar-classified shape. -/
theorem C10_cascade_witness :
    ComponentType.navbar ∈
      [ComponentType.navbar, ComponentType.footer, ComponentType.sidebar,
       ComponentType.button, ComponentType.card] ∧
    (9 : ℚ)/10 ∈ [(9 : ℚ)/10, 85/100, 7/10] ∧
    0 ≤ (9 : ℚ)/10 ∧ (9 : ℚ)/10 ≤ 1 :=
  C10_cascade_not_total.1 navHeroShape 1000 1000 ComponentType.navbar (9/10)
    (by norm_num) (by norm_num)
    (by norm_num [mapShapeToComponentType, pydiv, Except.bind, navHeroShape,
      DetectedShape.aspect])

end SynthFrame
